import Mathlib

/-!
# Kyty emulator: virtual memory and fault bridging (`VirtualMemory.cpp`)

A shallow embedding of `source/emulator/src/VirtualMemory.cpp`.

* Machine integers are natural numbers; a `uint64_t` result is reduced modulo `2^64`
  and a `DWORD`/`ULONG` store modulo `2^32` at the places where the C++ truncates.
* The host operating system is an explicit state `Host` that is passed through every
  operation.  It holds the byte contents of the address space, the native protection
  code of every committed page, the tables registered with the fault dispatcher and a
  chronological record of the host calls that were issued.
* A memory access that the host would answer with a hardware fault makes the embedded
  function return `none`.
-/

namespace VirtualMemory

/-! ## Portable protection modes and native protection codes -/

/-- Modelled from the spec: the portable access-mode enumeration `VirtualMemory::Mode`
of the header `Emulator/VirtualMemory.h` (the header is not part of the sources at
hand).  The first constructor is the value a value-initialised `Mode {}` takes. -/
inductive Mode where
  | NoAccess
  | Read
  | Write
  | ReadWrite
  | Execute
  | ExecuteRead
  | ExecuteWrite
  | ExecuteReadWrite
deriving DecidableEq, Repr

/-- Modelled from the spec: `VirtualMemory::IsExecute` of the header
`Emulator/VirtualMemory.h`; the executable modes are `Execute`, `ExecuteRead`,
`ExecuteWrite` and `ExecuteReadWrite`. -/
def IsExecute : Mode → Bool
  | .Execute | .ExecuteRead | .ExecuteWrite | .ExecuteReadWrite => true
  | _ => false

/-- Native page-protection constant `PAGE_NOACCESS` of the host. -/
def PAGE_NOACCESS : Nat := 0x01
/-- Native page-protection constant `PAGE_READONLY` of the host. -/
def PAGE_READONLY : Nat := 0x02
/-- Native page-protection constant `PAGE_READWRITE` of the host. -/
def PAGE_READWRITE : Nat := 0x04
/-- Native page-protection constant `PAGE_WRITECOPY` of the host. -/
def PAGE_WRITECOPY : Nat := 0x08
/-- Native page-protection constant `PAGE_EXECUTE` of the host. -/
def PAGE_EXECUTE : Nat := 0x10
/-- Native page-protection constant `PAGE_EXECUTE_READ` of the host. -/
def PAGE_EXECUTE_READ : Nat := 0x20
/-- Native page-protection constant `PAGE_EXECUTE_READWRITE` of the host. -/
def PAGE_EXECUTE_READWRITE : Nat := 0x40
/-- Native page-protection constant `PAGE_EXECUTE_WRITECOPY` of the host. -/
def PAGE_EXECUTE_WRITECOPY : Nat := 0x80

/-- The overload `static DWORD get_protection_flag(VirtualMemory::Mode mode)`:
portable mode to native protection code. -/
def get_protection_flag : Mode → Nat
  | .Read => PAGE_READONLY
  | .Write => PAGE_READWRITE
  | .ReadWrite => PAGE_READWRITE
  | .Execute => PAGE_EXECUTE
  | .ExecuteRead => PAGE_EXECUTE_READ
  | .ExecuteWrite => PAGE_EXECUTE_READWRITE
  | .ExecuteReadWrite => PAGE_EXECUTE_READWRITE
  | .NoAccess => PAGE_NOACCESS

/-- The overload `static VirtualMemory::Mode get_protection_flag(DWORD mode)`:
native protection code to portable mode.  (Lean has no overloading on the argument
type, hence the suffix.) -/
def get_protection_flag_of_native (mode : Nat) : Mode :=
  if mode = PAGE_NOACCESS then .NoAccess
  else if mode = PAGE_READONLY then .Read
  else if mode = PAGE_READWRITE then .ReadWrite
  else if mode = PAGE_EXECUTE then .Execute
  else if mode = PAGE_EXECUTE_READ then .ExecuteRead
  else if mode = PAGE_EXECUTE_READWRITE then .ExecuteReadWrite
  else .NoAccess

/-! ## The host -/

/-- One call into the host operating system, with the arguments that matter here. -/
inductive HostCall where
  | VirtualAlloc (lpAddress dwSize flProtect : Nat)
  | VirtualProtect (lpAddress dwSize flNewProtect : Nat)
  | FlushInstructionCache (lpBaseAddress dwSize : Nat)
  | RtlAddFunctionTable (FunctionTable EntryCount BaseAddress : Nat)
  | RtlDeleteFunctionTable (FunctionTable : Nat)
deriving DecidableEq, Repr

/-- The host `RUNTIME_FUNCTION` record: three 32-bit offsets relative to the base
address the table is registered against. -/
structure RUNTIME_FUNCTION where
  BeginAddress : Nat := 0
  EndAddress : Nat := 0
  UnwindData : Nat := 0
deriving DecidableEq, Repr

/-- The packed `ExceptionHandlerPrivate::UnwindInfo` record.  `ExceptionHandler` is a
32-bit `ULONG`; `ExceptionData` is the address of the owning private object. -/
structure UnwindInfo where
  Version : Nat := 0
  Flags : Nat := 0
  SizeOfProlog : Nat := 0
  CountOfCodes : Nat := 0
  FrameRegister : Nat := 0
  FrameOffset : Nat := 0
  ExceptionHandler : Nat := 0
  ExceptionData : Nat := 0
deriving DecidableEq, Repr

/-- Modelled from the spec: the trampoline `Jit::JmpRax` of the header `Emulator/Jit.h`
(not part of the sources at hand), a small native routine that forwards to a fixed
routine; `func` is the address it jumps to. -/
structure JmpRax where
  func : Nat := 0
deriving DecidableEq, Repr

/-- The packed `ExceptionHandlerPrivate::HandlerInfo` block that `InitHandler`
constructs at `handler_addr`. -/
structure HandlerInfo where
  code : JmpRax := {}
  function_table : RUNTIME_FUNCTION := {}
  unwind_info : UnwindInfo := {}
deriving DecidableEq, Repr

/-- The state of the host operating system.

* `mem a` is the byte stored at address `a`;
* `prot p` is the native protection code of page `p` (`none`: the page is not committed);
* `place hint size` is the address the host chooses for an allocation request
  (`0`: the host refuses);
* `accepts table count base` tells whether the host accepts a function-table registration;
* `tables` are the function tables currently registered with the fault dispatcher;
* `blocks a` is the handler block constructed at address `a`, if any;
* `calls` is the record of the host calls issued so far, oldest first. -/
structure Host where
  mem : Nat → Nat
  prot : Nat → Option Nat
  place : Nat → Nat → Nat
  accepts : Nat → Nat → Nat → Bool
  tables : List Nat
  blocks : Nat → Option HandlerInfo
  calls : List HostCall

/-- The page that holds address `address` (pages are `0x1000` bytes). -/
def firstPage (address : Nat) : Nat := address / 0x1000

/-- The page that holds the last byte of `[address, address + size)`. -/
def lastPage (address size : Nat) : Nat := (address + size - 1) / 0x1000

/-- Whether page `p` holds a byte of `[address, address + size)`. -/
def inRange (address size p : Nat) : Bool :=
  decide (firstPage address ≤ p ∧ p ≤ lastPage address size)

/-- Whether every page of `[address, address + size)` satisfies `ok`. -/
def allPages (h : Host) (address size : Nat) (ok : Option Nat → Bool) : Bool :=
  (List.range (lastPage address size + 1 - firstPage address)).all
    fun i => ok (h.prot (firstPage address + i))

/-- Whether every page of `[address, address + size)` is committed. -/
def committed (h : Host) (address size : Nat) : Bool :=
  allPages h address size Option.isSome

/-- Host call `VirtualAlloc(lpAddress, dwSize, MEM_COMMIT | MEM_RESERVE, flProtect)`:
on success the pages of the chosen range are committed with `flProtect` and the chosen
address is returned; on failure the result is `0`. -/
def hostVirtualAlloc (h : Host) (lpAddress dwSize flProtect : Nat) : Host × Nat :=
  let h1 := { h with calls := h.calls ++ [HostCall.VirtualAlloc lpAddress dwSize flProtect] }
  let a := h.place lpAddress dwSize
  if dwSize = 0 ∨ a = 0 then (h1, 0)
  else ({ h1 with prot := fun p => if inRange a dwSize p then some flProtect else h.prot p }, a)

/-- Host call `VirtualProtect(lpAddress, dwSize, flNewProtect, &old)`: fails (`none`)
on an empty range or a range with an uncommitted page and then changes nothing;
otherwise every page of the range takes `flNewProtect` and the previous code of the
first page is reported. -/
def hostVirtualProtect (h : Host) (lpAddress dwSize flNewProtect : Nat) : Host × Option Nat :=
  let h1 := { h with calls := h.calls ++ [HostCall.VirtualProtect lpAddress dwSize flNewProtect] }
  if dwSize = 0 ∨ committed h lpAddress dwSize = false then (h1, none)
  else
    ({ h1 with prot := fun p => if inRange lpAddress dwSize p then some flNewProtect else h.prot p },
      h.prot (firstPage lpAddress))

/-- Host call `::FlushInstructionCache(GetCurrentProcess(), address, size)`; it is
recorded and reports success. -/
def hostFlushInstructionCache (h : Host) (lpBaseAddress dwSize : Nat) : Host × Bool :=
  ({ h with calls := h.calls ++ [HostCall.FlushInstructionCache lpBaseAddress dwSize] }, true)

/-- Whether a page with native protection code `p` can be read. -/
def readable (p : Option Nat) : Bool :=
  p = some PAGE_READONLY || p = some PAGE_READWRITE || p = some PAGE_WRITECOPY ||
  p = some PAGE_EXECUTE_READ || p = some PAGE_EXECUTE_READWRITE ||
  p = some PAGE_EXECUTE_WRITECOPY

/-- Whether a page with native protection code `p` can be written. -/
def writable (p : Option Nat) : Bool :=
  p = some PAGE_READWRITE || p = some PAGE_WRITECOPY ||
  p = some PAGE_EXECUTE_READWRITE || p = some PAGE_EXECUTE_WRITECOPY

/-- The little-endian 64-bit value held by the eight bytes at `a`. -/
def read64 (mem : Nat → Nat) (a : Nat) : Nat :=
  mem a + mem (a + 1) * 2 ^ 8 + mem (a + 2) * 2 ^ 16 + mem (a + 3) * 2 ^ 24 +
  mem (a + 4) * 2 ^ 32 + mem (a + 5) * 2 ^ 40 + mem (a + 6) * 2 ^ 48 + mem (a + 7) * 2 ^ 56

/-- The memory after the eight bytes at `a` have been overwritten with the
little-endian bytes of `value`. -/
def write64 (mem : Nat → Nat) (a value : Nat) : Nat → Nat :=
  fun b => if a ≤ b ∧ b < a + 8 then value / 2 ^ (8 * (b - a)) % 256 else mem b

/-- The load `*ptr` of a `uint64_t` at `vaddr`: a hardware fault (`none`) unless every
page touched is readable. -/
def load64 (h : Host) (vaddr : Nat) : Option Nat :=
  if allPages h vaddr 8 readable then some (read64 h.mem vaddr) else none

/-- The store `*ptr = value` of a `uint64_t` at `vaddr`: a hardware fault (`none`)
unless every page touched is writable. -/
def store64 (h : Host) (vaddr value : Nat) : Option Host :=
  if allPages h vaddr 8 writable then some { h with mem := write64 h.mem vaddr value } else none

/-! ## Region allocator and code patching -/

/-- `uint64_t Alloc(uint64_t address, uint64_t size, Mode mode)`. -/
def Alloc (h : Host) (address size : Nat) (mode : Mode) : Host × Nat :=
  hostVirtualAlloc h address size (get_protection_flag mode)

/-- `bool Protect(uint64_t address, uint64_t size, Mode mode, Mode* old_mode)`.
The argument `old_mode` is `none` for a null pointer and otherwise the value the
pointee holds before the call; the third component of the result is the pointee
after the call. -/
def Protect (h : Host) (address size : Nat) (mode : Mode) (old_mode : Option Mode) :
    Host × Bool × Option Mode :=
  match hostVirtualProtect h address size (get_protection_flag mode) with
  | (h1, none) => (h1, false, old_mode)
  | (h1, some old_protect) =>
    (h1, true, old_mode.map fun _ => get_protection_flag_of_native old_protect)

/-- `bool FlushInstructionCache(uint64_t address, uint64_t size)`. -/
def FlushInstructionCache (h : Host) (address size : Nat) : Host × Bool :=
  hostFlushInstructionCache h address size

/-- `bool PatchReplace(uint64_t vaddr, uint64_t value)`.  The results of both
`Protect` calls are ignored, as in the source; `none` is a hardware fault at the load
or at the store. -/
def PatchReplace (h : Host) (vaddr value : Nat) : Option (Host × Bool) :=
  let p1 := Protect h vaddr 8 Mode.ReadWrite (some Mode.NoAccess)
  let old_mode := p1.2.2.getD Mode.NoAccess
  match load64 p1.1 vaddr with
  | none => none
  | some cur =>
    let ret := decide (cur ≠ value)
    match store64 p1.1 vaddr value with
    | none => none
    | some h2 =>
      let p2 := Protect h2 vaddr 8 old_mode none
      let h4 := if IsExecute old_mode then (FlushInstructionCache p2.1 vaddr 8).1 else p2.1
      some (h4, ret)

/-- The portable mode observed at `vaddr`: the native code of its page translated by
the native-to-Mode mapping (`none` when the page is not committed). -/
def modeAt (h : Host) (vaddr : Nat) : Option Mode :=
  (h.prot (firstPage vaddr)).map get_protection_flag_of_native

/-! ## Fault bridging: `ExceptionHandler` -/

/-- Modelled from the spec: `ExceptionHandler::ExceptionType` of the header
`Emulator/VirtualMemory.h`: an illegal memory access, or unrecognised.  `Unknown` is
the value of a zero-initialised field. -/
inductive ExceptionType where
  | Unknown
  | AccessViolation
deriving DecidableEq, Repr

/-- Modelled from the spec: `ExceptionHandler::AccessViolationType` of the header
`Emulator/VirtualMemory.h`.  `Unknown` is the value of a zero-initialised field. -/
inductive AccessViolationType where
  | Unknown
  | Read
  | Write
  | Execute
deriving DecidableEq, Repr

/-- Modelled from the spec: `ExceptionHandler::ExceptionInfo` of the header
`Emulator/VirtualMemory.h`, the portable fault description.  The default values are
those of the zero-initialised `ExceptionInfo info {}`. -/
structure ExceptionInfo where
  type : ExceptionType := .Unknown
  access_violation_type : AccessViolationType := .Unknown
  access_violation_vaddr : Nat := 0
deriving DecidableEq, Repr

/-- The host exception code `EXCEPTION_ACCESS_VIOLATION`. -/
def EXCEPTION_ACCESS_VIOLATION : Nat := 0xC0000005

/-- The host unwind flag `UNW_FLAG_EHANDLER`. -/
def UNW_FLAG_EHANDLER : Nat := 0x1

/-- The fields of the host `EXCEPTION_RECORD` that `Handler` reads;
`ExceptionInformation i` is the information word with index `i`. -/
structure EXCEPTION_RECORD where
  ExceptionCode : Nat
  ExceptionInformation : Nat → Nat

/-- The host enumeration `EXCEPTION_DISPOSITION`. -/
inductive EXCEPTION_DISPOSITION where
  | ExceptionContinueExecution
  | ExceptionContinueSearch
  | ExceptionNestedException
  | ExceptionCollidedUnwind
deriving DecidableEq, Repr

/-- The class `ExceptionHandlerPrivate`.  Pointers are addresses with `0` for
`nullptr`; the callback `func` acts on a state `σ` owned by the caller (`none` is the
null function pointer). -/
structure ExceptionHandlerPrivate (σ : Type) where
  base_address : Nat := 0
  handler_addr : Nat := 0
  image_size : Nat := 0
  function_table : Nat := 0
  func : Option (ExceptionInfo → σ → σ) := none

/-- The class `ExceptionHandler`: `m_p` is the address of the private object and
`priv` the object found there. -/
structure ExceptionHandler (σ : Type) where
  m_p : Nat
  priv : ExceptionHandlerPrivate σ

/-- What the translation unit takes from its surroundings: `sizeofJmpRax` is
`sizeof(Jit::JmpRax)` (the header `Emulator/Jit.h` is not part of the sources at
hand) and `HandlerEntry` the address of the static routine `Handler`. -/
structure Layout where
  sizeofJmpRax : Nat
  HandlerEntry : Nat

/-- Truncation to a 32-bit `DWORD`/`ULONG`. -/
def u32 (x : Nat) : Nat := x % 2 ^ 32

/-- Truncation to 64 bits. -/
def u64 (x : Nat) : Nat := x % 2 ^ 64

/-- The 64-bit difference `a - b` of two `uintptr_t`/`uint64_t` values. -/
def sub64 (a b : Nat) : Nat := (u64 a + 2 ^ 64 - u64 b) % 2 ^ 64

/-- The constructor `ExceptionHandler::ExceptionHandler()`: a fresh private object at
address `m_p`. -/
def ExceptionHandler.ctor (σ : Type) (m_p : Nat) : ExceptionHandler σ :=
  { m_p := m_p, priv := {} }

/-- The static routine `ExceptionHandlerPrivate::Handler`.  The private object `p` is
the one reached through `dispatcher_context->HandlerData`; `s` is the state the
callback acts on.  Calling a null callback is a crash (`none`). -/
def Handler {σ : Type} (exception_record : EXCEPTION_RECORD) (p : ExceptionHandlerPrivate σ)
    (s : σ) : Option (EXCEPTION_DISPOSITION × σ) :=
  let info : ExceptionInfo :=
    if exception_record.ExceptionCode = EXCEPTION_ACCESS_VIOLATION then
      { type := ExceptionType.AccessViolation
        access_violation_type :=
          if exception_record.ExceptionInformation 0 = 0 then AccessViolationType.Read
          else if exception_record.ExceptionInformation 0 = 1 then AccessViolationType.Write
          else if exception_record.ExceptionInformation 0 = 8 then AccessViolationType.Execute
          else AccessViolationType.Unknown
        access_violation_vaddr := exception_record.ExceptionInformation 1 }
    else {}
  match p.func with
  | none => none
  | some f => some (EXCEPTION_DISPOSITION.ExceptionContinueExecution, f info s)

/-- The member `ExceptionHandlerPrivate::InitHandler`, run on the object at address
`this`: constructs the handler block at `handler_addr`, fills it in and flushes the
instruction cache for the trampoline. -/
def InitHandler {σ : Type} (L : Layout) (this : Nat) (p : ExceptionHandlerPrivate σ) (h : Host) :
    ExceptionHandlerPrivate σ × Host :=
  let code := u64 p.handler_addr
  let function_table := u64 (p.handler_addr + L.sizeofJmpRax)
  let unwind_info := u64 (p.handler_addr + L.sizeofJmpRax + 12)
  let block : HandlerInfo :=
    { code := { func := L.HandlerEntry }
      function_table :=
        { BeginAddress := 0
          EndAddress := u32 p.image_size
          UnwindData := u32 (sub64 unwind_info p.base_address) }
      unwind_info :=
        { Version := 1
          Flags := UNW_FLAG_EHANDLER
          SizeOfProlog := 0
          CountOfCodes := 0
          FrameRegister := 0
          FrameOffset := 0
          ExceptionHandler := u32 (sub64 code p.base_address)
          ExceptionData := this } }
  let h1 := { h with blocks := fun a => if a = p.handler_addr then some block else h.blocks a }
  ({ p with function_table := function_table }, (FlushInstructionCache h1 code L.sizeofJmpRax).1)

/-- Host call `RtlAddFunctionTable(FunctionTable, EntryCount, BaseAddress)`. -/
def hostRtlAddFunctionTable (h : Host) (FunctionTable EntryCount BaseAddress : Nat) :
    Host × Bool :=
  let h1 :=
    { h with calls := h.calls ++ [HostCall.RtlAddFunctionTable FunctionTable EntryCount BaseAddress] }
  if h.accepts FunctionTable EntryCount BaseAddress then
    ({ h1 with tables := FunctionTable :: h.tables }, true)
  else (h1, false)

/-- Host call `RtlDeleteFunctionTable(FunctionTable)`: succeeds exactly when the
table is registered, and then removes it. -/
def hostRtlDeleteFunctionTable (h : Host) (FunctionTable : Nat) : Host × Bool :=
  let h1 := { h with calls := h.calls ++ [HostCall.RtlDeleteFunctionTable FunctionTable] }
  if FunctionTable ∈ h.tables then ({ h1 with tables := h.tables.erase FunctionTable }, true)
  else (h1, false)

/-- The member `ExceptionHandler::Install`. -/
def Install {σ : Type} (L : Layout) (e : ExceptionHandler σ) (h : Host)
    (base_address handler_addr image_size : Nat) (func : Option (ExceptionInfo → σ → σ)) :
    ExceptionHandler σ × Host × Bool :=
  if e.priv.function_table = 0 then
    let p1 : ExceptionHandlerPrivate σ :=
      { e.priv with
        base_address := base_address
        handler_addr := handler_addr
        image_size := image_size
        func := func }
    let r := InitHandler L e.m_p p1 h
    let a := hostRtlAddFunctionTable r.2 r.1.function_table 1 base_address
    if a.2 = false then ({ e with priv := r.1 }, a.1, false)
    else ({ e with priv := r.1 }, a.1, true)
  else (e, h, false)

/-- The member `ExceptionHandler::Uninstall`. -/
def Uninstall {σ : Type} (e : ExceptionHandler σ) (h : Host) : ExceptionHandler σ × Host × Bool :=
  if e.priv.function_table ≠ 0 then
    let d := hostRtlDeleteFunctionTable h e.priv.function_table
    if d.2 = false then (e, d.1, false)
    else ({ e with priv := { e.priv with function_table := 0 } }, d.1, true)
  else (e, h, false)

/-- An instance is in the state Installed when its `function_table` pointer is set:
this is the test `Install` and `Uninstall` make. -/
def Installed {σ : Type} (e : ExceptionHandler σ) : Prop := e.priv.function_table ≠ 0

instance {σ : Type} (e : ExceptionHandler σ) : Decidable (Installed e) := by
  unfold Installed; infer_instance

/-- A host for concrete evaluation: nothing committed, nothing registered, every
allocation is placed at `0x10000` and every registration is accepted or refused
according to `ok`. -/
def sampleHost (ok : Bool) : Host :=
  { mem := fun _ => 0
    prot := fun _ => none
    place := fun _ _ => 0x10000
    accepts := fun _ _ _ => ok
    tables := []
    blocks := fun _ => none
    calls := [] }

/-- The layout used for concrete evaluation: a twelve-byte trampoline. -/
def sampleLayout : Layout := { sizeofJmpRax := 12, HandlerEntry := 0x140001000 }

/-- A callback for concrete evaluation: it records the fault descriptions it is
handed, newest first. -/
def sampleCallback : ExceptionInfo → List ExceptionInfo → List ExceptionInfo :=
  fun info s => info :: s

/-- The outcome of `Install(0x400000, 0x70000000, 0x10000, callback)` on a freshly
constructed instance over a host that answers the registration with `ok`. -/
def sampleInstall (ok : Bool) : ExceptionHandler (List ExceptionInfo) × Host × Bool :=
  Install sampleLayout (ExceptionHandler.ctor (List ExceptionInfo) 0x5000) (sampleHost ok)
    0x400000 0x70000000 0x10000 (some sampleCallback)

/-- A callback together with a counter of its invocations: the state is paired with
the number of times the callback has run. -/
def counted {σ : Type} (f : ExceptionInfo → σ → σ) : ExceptionInfo → σ × Nat → σ × Nat :=
  fun info s => (f info s.1, s.2 + 1)

/-! ## Auxiliary facts about the host -/

theorem inRange_firstPage (address size : Nat) (hs : size ≠ 0) :
    inRange address size (firstPage address) = true := by
  simp only [inRange, firstPage, lastPage, decide_eq_true_eq]
  omega

theorem allPages_eq_true (h : Host) (address size : Nat) (ok : Option Nat → Bool) :
    allPages h address size ok = true ↔
      ∀ p, inRange address size p = true → ok (h.prot p) = true := by
  simp only [allPages, List.all_eq_true, List.mem_range, inRange, decide_eq_true_eq]
  constructor
  · intro H p hp
    have := H (p - firstPage address) (by omega)
    rwa [Nat.add_sub_cancel' hp.1] at this
  · intro H i hi
    exact H _ (by omega)

theorem read64_write64 (mem : Nat → Nat) (a value : Nat) (hv : value < 2 ^ 64) :
    read64 (write64 mem a value) a = value := by
  simp only [read64, write64]
  norm_num
  omega

theorem hostVirtualProtect_ok (h : Host) (address size flNewProtect : Nat) (hs : size ≠ 0)
    (hc : committed h address size = true) :
    hostVirtualProtect h address size flNewProtect =
      ({ h with
          calls := h.calls ++ [HostCall.VirtualProtect address size flNewProtect]
          prot := fun p => if inRange address size p then some flNewProtect else h.prot p },
        h.prot (firstPage address)) := by
  simp [hostVirtualProtect, hs, hc]

theorem committed_firstPage (h : Host) (address size : Nat) (hs : size ≠ 0)
    (hc : committed h address size = true) : ∃ c, h.prot (firstPage address) = some c := by
  have := (allPages_eq_true h address size Option.isSome).1 hc _ (inRange_firstPage address size hs)
  exact Option.isSome_iff_exists.1 this

theorem Protect_ok (h : Host) (address size c : Nat) (mode : Mode) (old_mode : Option Mode)
    (hs : size ≠ 0) (hc : committed h address size = true)
    (hcp : h.prot (firstPage address) = some c) :
    Protect h address size mode old_mode =
      ({ h with
          calls := h.calls ++ [HostCall.VirtualProtect address size (get_protection_flag mode)]
          prot := fun p =>
            if inRange address size p then some (get_protection_flag mode) else h.prot p },
        true, old_mode.map fun _ => get_protection_flag_of_native c) := by
  simp [Protect, hostVirtualProtect_ok h address size _ hs hc, hcp]

theorem allPages_of_forall (g : Host) (address size : Nat) (ok : Option Nat → Bool) (c : Nat)
    (hok : ok (some c) = true) (hg : ∀ p, inRange address size p = true → g.prot p = some c) :
    allPages g address size ok = true := by
  rw [allPages_eq_true]
  intro p hp
  rw [hg p hp]
  exact hok

/-- What `PatchReplace` does when the pages of the eight bytes are committed and the
first of them has native code `c`: it returns, reports whether the content differed,
leaves the new content, leaves every page of the range with the native code of the
translated `c`, and has issued two protection changes followed, for an executable
translated `c`, by one flush. -/
theorem PatchReplace_committed (h : Host) (vaddr value c : Nat)
    (hc : committed h vaddr 8 = true) (hcp : h.prot (firstPage vaddr) = some c) :
    PatchReplace h vaddr value =
      some ({ h with
              mem := write64 h.mem vaddr value
              prot := fun p => if inRange vaddr 8 p then
                some (get_protection_flag (get_protection_flag_of_native c)) else h.prot p
              calls := h.calls ++
                ([HostCall.VirtualProtect vaddr 8 PAGE_READWRITE,
                  HostCall.VirtualProtect vaddr 8
                    (get_protection_flag (get_protection_flag_of_native c))] ++
                 if IsExecute (get_protection_flag_of_native c) then
                   [HostCall.FlushInstructionCache vaddr 8] else []) },
            decide (read64 h.mem vaddr ≠ value)) := by
  have hP1 := Protect_ok h vaddr 8 c Mode.ReadWrite (some Mode.NoAccess) (by decide) hc hcp
  generalize hh1 : ({ h with
          calls := h.calls ++ [HostCall.VirtualProtect vaddr 8 (get_protection_flag Mode.ReadWrite)]
          prot := fun p =>
            if inRange vaddr 8 p then some (get_protection_flag Mode.ReadWrite) else h.prot p } :
          Host) = h1 at hP1
  have hprot1 : ∀ p, inRange vaddr 8 p = true → h1.prot p = some PAGE_READWRITE := by
    intro p hp
    subst hh1
    simp [hp, get_protection_flag]
  have hmem1 : h1.mem = h.mem := by subst hh1; rfl
  have hl : load64 h1 vaddr = some (read64 h.mem vaddr) := by
    simp [load64, allPages_of_forall h1 vaddr 8 readable _ (by decide) hprot1, hmem1]
  have hs : store64 h1 vaddr value = some { h1 with mem := write64 h.mem vaddr value } := by
    simp [store64, allPages_of_forall h1 vaddr 8 writable _ (by decide) hprot1, hmem1]
  have hc2 : committed { h1 with mem := write64 h.mem vaddr value } vaddr 8 = true :=
    allPages_of_forall _ vaddr 8 Option.isSome _ rfl hprot1
  have hP2 := Protect_ok { h1 with mem := write64 h.mem vaddr value } vaddr 8 PAGE_READWRITE
    (get_protection_flag_of_native c) none (by decide) hc2
    (hprot1 _ (inRange_firstPage vaddr 8 (by decide)))
  simp only [PatchReplace, hP1, hl, hs, hP2, Option.map_some', Option.getD_some]
  subst hh1
  have hRW : get_protection_flag Mode.ReadWrite = PAGE_READWRITE := rfl
  have hfun : ∀ n : Nat, (fun p => if inRange vaddr 8 p = true then some n
      else if inRange vaddr 8 p = true then some PAGE_READWRITE
      else h.prot p) = (fun p => if inRange vaddr 8 p = true then some n else h.prot p) := by
    intro n
    funext p
    split <;> rfl
  split <;>
    simp [FlushInstructionCache, hostFlushInstructionCache, hfun, hRW]

/-- When a page of the eight bytes is not committed the first `Protect` fails, nothing
is changed and the load faults: `PatchReplace` does not return. -/
theorem PatchReplace_uncommitted (h : Host) (vaddr value : Nat)
    (hc : committed h vaddr 8 = false) : PatchReplace h vaddr value = none := by
  have hP1 : Protect h vaddr 8 Mode.ReadWrite (some Mode.NoAccess) =
      ({ h with calls := h.calls ++ [HostCall.VirtualProtect vaddr 8 PAGE_READWRITE] }, false,
        some Mode.NoAccess) := by
    simp [Protect, hostVirtualProtect, hc, get_protection_flag]
  have hnr : allPages
      ({ h with calls := h.calls ++ [HostCall.VirtualProtect vaddr 8 PAGE_READWRITE] } : Host)
      vaddr 8 readable = false := by
    rw [Bool.eq_false_iff]
    intro hr
    rw [allPages_eq_true] at hr
    have : committed h vaddr 8 = true := by
      rw [committed, allPages_eq_true]
      intro p hp
      have := hr p hp
      cases hq : h.prot p with
      | none => simp [hq, readable] at this
      | some c => rfl
    rw [hc] at this
    exact Bool.false_ne_true this
  simp only [PatchReplace, hP1, load64, hnr]
  rfl

theorem committed_of_Protect (h : Host) (address size : Nat) (mode : Mode)
    (old_mode : Option Mode) (hp : (Protect h address size mode old_mode).2.1 = true) :
    size ≠ 0 ∧ committed h address size = true := by
  unfold Protect hostVirtualProtect at hp
  by_cases hcond : size = 0 ∨ committed h address size = false
  · rw [if_pos hcond] at hp
    exact absurd hp (by simp)
  · simp only [not_or, Bool.not_eq_false] at hcond
    exact hcond

theorem of_native_get_protection_flag (m : Mode) (h1 : m ≠ Mode.Write)
    (h2 : m ≠ Mode.ExecuteWrite) : get_protection_flag_of_native (get_protection_flag m) = m := by
  cases m <;> first | rfl | exact absurd rfl h1 | exact absurd rfl h2

theorem of_native_to_native_of_native (c : Nat) :
    get_protection_flag_of_native (get_protection_flag (get_protection_flag_of_native c)) =
      get_protection_flag_of_native c := by
  apply of_native_get_protection_flag <;>
  · unfold get_protection_flag_of_native
    split_ifs <;> simp

theorem committed_hostVirtualAlloc (h : Host) (lpAddress dwSize flProtect : Nat)
    (hs : dwSize ≠ 0) (hpl : h.place lpAddress dwSize ≠ 0) :
    (hostVirtualAlloc h lpAddress dwSize flProtect).2 = h.place lpAddress dwSize ∧
    ∀ p, inRange (h.place lpAddress dwSize) dwSize p = true →
      (hostVirtualAlloc h lpAddress dwSize flProtect).1.prot p = some flProtect := by
  simp only [hostVirtualAlloc, hs, hpl, or_self, if_false, true_and]
  intro p hp
  simp [hp]

/-- What `Install` does on an instance whose `function_table` is null: the four
arguments are stored, the handler block is constructed at `handler_addr`, the
trampoline is flushed, the table is offered to the host and the host's answer is
returned; `function_table` keeps the address of the table either way. -/
theorem Install_uninstalled {σ : Type} (L : Layout) (e : ExceptionHandler σ) (h : Host)
    (base_address handler_addr image_size : Nat) (func : Option (ExceptionInfo → σ → σ))
    (hu : ¬ Installed e) :
    (Install L e h base_address handler_addr image_size func).2.2 =
      h.accepts (u64 (handler_addr + L.sizeofJmpRax)) 1 base_address ∧
    (Install L e h base_address handler_addr image_size func).2.1.calls =
      h.calls ++ [HostCall.FlushInstructionCache (u64 handler_addr) L.sizeofJmpRax,
        HostCall.RtlAddFunctionTable (u64 (handler_addr + L.sizeofJmpRax)) 1 base_address] ∧
    (Install L e h base_address handler_addr image_size func).1.priv =
      { base_address := base_address
        handler_addr := handler_addr
        image_size := image_size
        function_table := u64 (handler_addr + L.sizeofJmpRax)
        func := func } ∧
    (Install L e h base_address handler_addr image_size func).2.1.blocks handler_addr =
      some
        { code := { func := L.HandlerEntry }
          function_table :=
            { BeginAddress := 0
              EndAddress := u32 image_size
              UnwindData :=
                u32 (sub64 (u64 (handler_addr + L.sizeofJmpRax + 12)) base_address) }
          unwind_info :=
            { Version := 1
              Flags := UNW_FLAG_EHANDLER
              SizeOfProlog := 0
              CountOfCodes := 0
              FrameRegister := 0
              FrameOffset := 0
              ExceptionHandler := u32 (sub64 (u64 handler_addr) base_address)
              ExceptionData := e.m_p } } := by
  have h0 : e.priv.function_table = 0 := by
    unfold Installed at hu
    exact not_not.1 hu
  by_cases ha : h.accepts (u64 (handler_addr + L.sizeofJmpRax)) 1 base_address = true <;>
    simp [Install, h0, InitHandler, hostRtlAddFunctionTable, FlushInstructionCache,
      hostFlushInstructionCache, ha]

/-! ## The claims -/

/-- C1: when the host protection calls succeed and `x` is a 64-bit value, the first
`PatchReplace(v, x)` returns, its result is `true` exactly when the eight bytes at `v`
held a value different from `x`, it leaves the eight bytes at `v` equal to `x`, and a
`PatchReplace(v, x)` issued right afterwards returns `false`. -/
theorem PatchReplace_reports_change_once (h : Host) (v x : Nat) (hx : x < 2 ^ 64)
    (hp : (Protect h v 8 Mode.ReadWrite (some Mode.NoAccess)).2.1 = true) :
    ∃ h1 h2 r, PatchReplace h v x = some (h1, r) ∧ (r = true ↔ read64 h.mem v ≠ x) ∧
      read64 h1.mem v = x ∧ PatchReplace h1 v x = some (h2, false) := by
  have hc := (committed_of_Protect h v 8 _ _ hp).2
  obtain ⟨c, hcp⟩ := committed_firstPage h v 8 (by decide) hc
  have h1eq := PatchReplace_committed h v x c hc hcp
  generalize hh1 : ({ h with
      mem := write64 h.mem v x
      prot := fun p => if inRange v 8 p then
        some (get_protection_flag (get_protection_flag_of_native c)) else h.prot p
      calls := h.calls ++
        ([HostCall.VirtualProtect v 8 PAGE_READWRITE,
          HostCall.VirtualProtect v 8 (get_protection_flag (get_protection_flag_of_native c))] ++
         if IsExecute (get_protection_flag_of_native c) then
           [HostCall.FlushInstructionCache v 8] else []) } : Host) = h1 at h1eq
  have hmem : h1.mem = write64 h.mem v x := by subst hh1; rfl
  have hprot : ∀ p, inRange v 8 p = true →
      h1.prot p = some (get_protection_flag (get_protection_flag_of_native c)) := by
    intro p hp
    subst hh1
    simp [hp]
  have hc1 : committed h1 v 8 = true := allPages_of_forall _ v 8 Option.isSome _ rfl hprot
  have hread : read64 h1.mem v = x := by rw [hmem]; exact read64_write64 h.mem v x hx
  have h2eq := PatchReplace_committed h1 v x _ hc1 (hprot _ (inRange_firstPage v 8 (by decide)))
  have hsame : decide (x ≠ x) = false := by simp
  rw [hread, hsame] at h2eq
  exact ⟨h1, _, _, h1eq, by simp, hread, h2eq⟩

/-- Witness for C1: a host whose page `0x10` is committed read-only and holds zeroes,
patched at `0x10000` with the value `0x1122334455667788`. -/
theorem PatchReplace_reports_change_once_witness :
    ∃ h1 h2 r,
      PatchReplace { sampleHost true with prot := fun p => if p = 0x10 then some PAGE_READONLY else none }
        0x10000 0x1122334455667788 = some (h1, r) ∧
      (r = true ↔
        read64 ({ sampleHost true with
          prot := fun p => if p = 0x10 then some PAGE_READONLY else none } : Host).mem 0x10000 ≠
          0x1122334455667788) ∧
      read64 h1.mem 0x10000 = 0x1122334455667788 ∧
      PatchReplace h1 0x10000 0x1122334455667788 = some (h2, false) :=
  PatchReplace_reports_change_once _ 0x10000 0x1122334455667788 (by decide) (by decide)

/-- C2: whatever native protection the committed pages of the eight bytes at `v` have,
`PatchReplace(v, x)` returns and the portable mode observed at `v` afterwards equals
the portable mode observed at `v` before the call. -/
theorem PatchReplace_restores_mode (h : Host) (v x : Nat) (hc : committed h v 8 = true) :
    ∃ h1 r, PatchReplace h v x = some (h1, r) ∧ modeAt h1 v = modeAt h v := by
  obtain ⟨c, hcp⟩ := committed_firstPage h v 8 (by decide) hc
  refine ⟨_, _, PatchReplace_committed h v x c hc hcp, ?_⟩
  simp [modeAt, inRange_firstPage v 8 (by decide), hcp, of_native_to_native_of_native]

/-- Witness for C2: a host whose page `0x10` is committed execute-read, patched at
`0x10008`. -/
theorem PatchReplace_restores_mode_witness :
    ∃ h1 r,
      PatchReplace { sampleHost true with prot := fun p => if p = 0x10 then some PAGE_EXECUTE_READ else none }
        0x10008 7 = some (h1, r) ∧
      modeAt h1 0x10008 =
        modeAt { sampleHost true with prot := fun p => if p = 0x10 then some PAGE_EXECUTE_READ else none }
          0x10008 :=
  PatchReplace_restores_mode _ 0x10008 7 (by decide)

/-- C3 (as the code has it): over a host whose allocation succeeds, `Alloc(hint, size,
mode)` returns a nonzero address `a`, and a following `Protect(a, size, mode', &old)`
returns `true` and reports `old == mode` for the six modes `NoAccess`, `Read`,
`ReadWrite`, `Execute`, `ExecuteRead` and `ExecuteReadWrite`; for `Write` it reports
`ReadWrite` and for `ExecuteWrite` it reports `ExecuteReadWrite`. -/
theorem Alloc_then_Protect_reports (h : Host) (hint size : Nat) (mode mode' old0 : Mode)
    (hs : size ≠ 0) (hpl : h.place hint size ≠ 0) :
    (Alloc h hint size mode).2 ≠ 0 ∧
    ∃ old, (Protect (Alloc h hint size mode).1 (Alloc h hint size mode).2 size mode'
        (some old0)).2 = (true, some old) ∧
      (mode = Mode.Write → old = Mode.ReadWrite) ∧
      (mode = Mode.ExecuteWrite → old = Mode.ExecuteReadWrite) ∧
      (mode ≠ Mode.Write → mode ≠ Mode.ExecuteWrite → old = mode) := by
  obtain ⟨ha, hprot⟩ := committed_hostVirtualAlloc h hint size (get_protection_flag mode) hs hpl
  have hc : committed (Alloc h hint size mode).1 (Alloc h hint size mode).2 size = true := by
    unfold Alloc
    rw [ha]
    exact allPages_of_forall _ _ size Option.isSome _ rfl hprot
  have hcp : (Alloc h hint size mode).1.prot (firstPage (Alloc h hint size mode).2) =
      some (get_protection_flag mode) := by
    unfold Alloc
    rw [ha]
    exact hprot _ (inRange_firstPage _ size hs)
  refine ⟨by unfold Alloc; rw [ha]; exact hpl,
    get_protection_flag_of_native (get_protection_flag mode), ?_, ?_, ?_, ?_⟩
  · rw [Protect_ok _ _ size _ mode' (some old0) hs hc hcp]
    rfl
  · rintro rfl; rfl
  · rintro rfl; rfl
  · exact of_native_get_protection_flag mode

/-- Witness for C3: a `0x1000`-byte `ExecuteWrite` allocation on the sample host. -/
theorem Alloc_then_Protect_reports_witness :
    (Alloc (sampleHost true) 0 0x1000 Mode.ExecuteWrite).2 ≠ 0 ∧
    ∃ old, (Protect (Alloc (sampleHost true) 0 0x1000 Mode.ExecuteWrite).1
        (Alloc (sampleHost true) 0 0x1000 Mode.ExecuteWrite).2 0x1000 Mode.Read
        (some Mode.NoAccess)).2 = (true, some old) ∧
      (Mode.ExecuteWrite = Mode.Write → old = Mode.ReadWrite) ∧
      (Mode.ExecuteWrite = Mode.ExecuteWrite → old = Mode.ExecuteReadWrite) ∧
      (Mode.ExecuteWrite ≠ Mode.Write → Mode.ExecuteWrite ≠ Mode.ExecuteWrite →
        old = Mode.ExecuteWrite) :=
  Alloc_then_Protect_reports (sampleHost true) 0 0x1000 Mode.ExecuteWrite Mode.Read
    Mode.NoAccess (by decide) (by decide)

/-- C3 fails as stated: on the sample host a `0x1000`-byte allocation with mode `Write`
succeeds at `0x10000`, and the following `Protect` succeeds but reports `ReadWrite`,
not `Write`. -/
theorem Alloc_Write_reports_ReadWrite :
    (Alloc (sampleHost true) 0 0x1000 Mode.Write).2 = 0x10000 ∧
    (Protect (Alloc (sampleHost true) 0 0x1000 Mode.Write).1 0x10000 0x1000 Mode.Read
      (some Mode.NoAccess)).2 = (true, some Mode.ReadWrite) ∧
    (Protect (Alloc (sampleHost true) 0 0x1000 Mode.Write).1 0x10000 0x1000 Mode.Read
      (some Mode.NoAccess)).2.2 ≠ some Mode.Write := by
  decide

/-- C4: a native protection code that is none of the six recognised codes is mapped to
`NoAccess`; consequently the mode a code is mapped to permits execution only when the
code is `PAGE_EXECUTE`, `PAGE_EXECUTE_READ` or `PAGE_EXECUTE_READWRITE`.  This holds
for every natural number, in particular for every 32-bit code. -/
theorem get_protection_flag_of_native_fail_safe (n : Nat) :
    (n ≠ PAGE_NOACCESS → n ≠ PAGE_READONLY → n ≠ PAGE_READWRITE → n ≠ PAGE_EXECUTE →
      n ≠ PAGE_EXECUTE_READ → n ≠ PAGE_EXECUTE_READWRITE →
      get_protection_flag_of_native n = Mode.NoAccess) ∧
    (IsExecute (get_protection_flag_of_native n) = true →
      n = PAGE_EXECUTE ∨ n = PAGE_EXECUTE_READ ∨ n = PAGE_EXECUTE_READWRITE) := by
  constructor
  · intro h1 h2 h3 h4 h5 h6
    simp [get_protection_flag_of_native, h1, h2, h3, h4, h5, h6]
  · unfold get_protection_flag_of_native
    split_ifs with h1 h2 h3 h4 h5 h6 <;> simp [IsExecute, *]

/-- C5, evaluated on the code: `Install` on a fresh instance over a host that refuses
the registration returns `false` but leaves `function_table` set to `0x7000000C`, so
the instance counts as Installed; a second `Install` then returns `false` without a
single host call, and `Uninstall` asks the host to delete the table that was never
registered before it returns `false`. -/
theorem Install_refused_keeps_function_table :
    (sampleInstall false).2.2 = false ∧
    (sampleInstall false).1.priv.function_table = 0x7000000C ∧
    Installed (sampleInstall false).1 ∧
    (Install sampleLayout (sampleInstall false).1 (sampleInstall false).2.1
      0x400000 0x70000000 0x10000 (some sampleCallback)).2.2 = false ∧
    (Install sampleLayout (sampleInstall false).1 (sampleInstall false).2.1
      0x400000 0x70000000 0x10000 (some sampleCallback)).2.1.calls =
        (sampleInstall false).2.1.calls ∧
    (Uninstall (sampleInstall false).1 (sampleInstall false).2.1).2.2 = false ∧
    (Uninstall (sampleInstall false).1 (sampleInstall false).2.1).2.1.calls =
      (sampleInstall false).2.1.calls ++ [HostCall.RtlDeleteFunctionTable 0x7000000C] := by
  decide

/-- C6: `Install` on an instance that is already Installed returns `false` and changes
nothing: the instance (base address, handler address, image size, callback and
`function_table`) and the host (handler blocks, registered tables, record of host
calls) are returned as they were. -/
theorem Install_installed_is_noop {σ : Type} (L : Layout) (e : ExceptionHandler σ) (h : Host)
    (base_address handler_addr image_size : Nat) (func : Option (ExceptionInfo → σ → σ))
    (hi : Installed e) :
    Install L e h base_address handler_addr image_size func = (e, h, false) := by
  unfold Installed at hi
  simp [Install, hi]

/-- Witness for C6: a second `Install`, with other arguments, on the instance that a
successful `Install` produced. -/
theorem Install_installed_is_noop_witness :
    Install sampleLayout (sampleInstall true).1 (sampleInstall true).2.1
      0x800000 0x71000000 0x20000 none =
      ((sampleInstall true).1, (sampleInstall true).2.1, false) :=
  Install_installed_is_noop sampleLayout (sampleInstall true).1 (sampleInstall true).2.1
    0x800000 0x71000000 0x20000 none (by decide)

/-- C7: `Uninstall` returns `true` exactly when the instance is Installed and the host
removes the table.  On an Installed instance the host is asked once to delete the
table, and the host returned is the host after that call.  After a `true` return the
table was registered and is no longer, the deletion is the one host call added, the
instance differs only in its nulled `function_table` and is not Installed, an
`Uninstall` issued right after returns `false` without a host call, and a following
`Install` is carried through to the host (the trampoline is flushed, the table is
offered and the host's answer is returned).  When the host refuses the removal the
instance and the registered tables are unchanged.  On an instance that is not
Installed, in particular a freshly constructed one, `Uninstall` returns `false` and
changes nothing. -/
theorem Uninstall_true_iff_installed_and_removed {σ : Type} (L : Layout)
    (e : ExceptionHandler σ) (h : Host) :
    ((Uninstall e h).2.2 = true ↔
      Installed e ∧ (hostRtlDeleteFunctionTable h e.priv.function_table).2 = true) ∧
    (Installed e →
      (Uninstall e h).2.1 = (hostRtlDeleteFunctionTable h e.priv.function_table).1 ∧
      (Uninstall e h).2.1.calls =
        h.calls ++ [HostCall.RtlDeleteFunctionTable e.priv.function_table]) ∧
    ((Uninstall e h).2.2 = true →
      e.priv.function_table ∈ h.tables ∧
      (Uninstall e h).2.1.tables = h.tables.erase e.priv.function_table ∧
      (Uninstall e h).2.1.calls =
        h.calls ++ [HostCall.RtlDeleteFunctionTable e.priv.function_table] ∧
      (Uninstall e h).1 = { e with priv := { e.priv with function_table := 0 } } ∧
      ¬ Installed (Uninstall e h).1 ∧
      Uninstall (Uninstall e h).1 (Uninstall e h).2.1 =
        ((Uninstall e h).1, (Uninstall e h).2.1, false) ∧
      ∀ (base_address handler_addr image_size : Nat) (func : Option (ExceptionInfo → σ → σ)),
        (Install L (Uninstall e h).1 (Uninstall e h).2.1 base_address handler_addr image_size
            func).2.2 =
          (Uninstall e h).2.1.accepts (u64 (handler_addr + L.sizeofJmpRax)) 1 base_address ∧
        (Install L (Uninstall e h).1 (Uninstall e h).2.1 base_address handler_addr image_size
            func).2.1.calls =
          (Uninstall e h).2.1.calls ++
            [HostCall.FlushInstructionCache (u64 handler_addr) L.sizeofJmpRax,
              HostCall.RtlAddFunctionTable (u64 (handler_addr + L.sizeofJmpRax)) 1
                base_address]) ∧
    (Installed e → (Uninstall e h).2.2 = false →
      e.priv.function_table ∉ h.tables ∧
      (Uninstall e h).1 = e ∧
      (Uninstall e h).2.1.tables = h.tables) ∧
    (¬ Installed e → Uninstall e h = (e, h, false)) ∧
    (∀ m_p : Nat, ¬ Installed (ExceptionHandler.ctor σ m_p) ∧
      Uninstall (ExceptionHandler.ctor σ m_p) h = (ExceptionHandler.ctor σ m_p, h, false)) := by
  have hiff : (Uninstall e h).2.2 = true ↔
      Installed e ∧ (hostRtlDeleteFunctionTable h e.priv.function_table).2 = true := by
    unfold Uninstall Installed
    by_cases h0 : e.priv.function_table = 0
    · simp [h0]
    · by_cases hd : (hostRtlDeleteFunctionTable h e.priv.function_table).2 = true
      · simp [h0, hd]
      · simp [h0, hd]
  have hun : ∀ (e1 : ExceptionHandler σ) (h1 : Host), ¬ Installed e1 →
      Uninstall e1 h1 = (e1, h1, false) := by
    intro e1 h1 hn
    unfold Installed at hn
    simp [Uninstall, not_not.1 hn]
  have hhost : Installed e →
      (Uninstall e h).2.1 = (hostRtlDeleteFunctionTable h e.priv.function_table).1 := by
    intro hi
    unfold Installed at hi
    by_cases hd : (hostRtlDeleteFunctionTable h e.priv.function_table).2 = true
    · simp [Uninstall, hi, hd]
    · simp [Uninstall, hi, hd]
  have hcalls : ∀ t : Nat, (hostRtlDeleteFunctionTable h t).1.calls =
      h.calls ++ [HostCall.RtlDeleteFunctionTable t] := by
    intro t
    unfold hostRtlDeleteFunctionTable
    split <;> rfl
  have hmem : ∀ t : Nat, (hostRtlDeleteFunctionTable h t).2 = true ↔ t ∈ h.tables := by
    intro t
    unfold hostRtlDeleteFunctionTable
    split <;> simp [*]
  have htables : ∀ t : Nat, (hostRtlDeleteFunctionTable h t).1.tables =
      if t ∈ h.tables then h.tables.erase t else h.tables := by
    intro t
    unfold hostRtlDeleteFunctionTable
    split <;> rfl
  have hinst : (Uninstall e h).2.2 = true →
      (Uninstall e h).1 = { e with priv := { e.priv with function_table := 0 } } := by
    intro ht
    obtain ⟨hi, hd⟩ := hiff.1 ht
    unfold Installed at hi
    simp [Uninstall, hi, hd]
  have hafter : (Uninstall e h).2.2 = true → ¬ Installed (Uninstall e h).1 := by
    intro ht
    rw [hinst ht]
    unfold Installed
    simp
  refine ⟨hiff, ?_, ?_, ?_, hun e h, ?_⟩
  · intro hi
    refine ⟨hhost hi, ?_⟩
    rw [hhost hi, hcalls]
  · intro ht
    obtain ⟨hi, hd⟩ := hiff.1 ht
    have hin := (hmem _).1 hd
    refine ⟨hin, ?_, ?_, hinst ht, hafter ht, hun _ _ (hafter ht), ?_⟩
    · rw [hhost hi, htables, if_pos hin]
    · rw [hhost hi, hcalls]
    · intro base_address handler_addr image_size func
      have := Install_uninstalled L (Uninstall e h).1 (Uninstall e h).2.1 base_address
        handler_addr image_size func (hafter ht)
      exact ⟨this.1, this.2.1⟩
  · intro hi hf
    have hd : ¬ (hostRtlDeleteFunctionTable h e.priv.function_table).2 = true := by
      intro hd
      rw [hiff.2 ⟨hi, hd⟩] at hf
      exact Bool.noConfusion hf
    have hnin : e.priv.function_table ∉ h.tables := fun hin => hd ((hmem _).2 hin)
    refine ⟨hnin, ?_, ?_⟩
    · unfold Installed at hi
      simp [Uninstall, hi, hd]
    · rw [hhost hi, htables, if_neg hnin]
  · intro m_p
    have hn : ¬ Installed (ExceptionHandler.ctor σ m_p) := by
      unfold Installed ExceptionHandler.ctor
      simp
    exact ⟨hn, hun _ _ hn⟩

/-- Witness for C7: `Uninstall` on the instance that a successful `Install` produced
returns `true`, the one registered table is gone and the deletion is the last host
call. -/
theorem Uninstall_true_iff_installed_and_removed_witness :
    (Uninstall (sampleInstall true).1 (sampleInstall true).2.1).2.2 = true ∧
    (Uninstall (sampleInstall true).1 (sampleInstall true).2.1).2.1.tables =
      (sampleInstall true).2.1.tables.erase (sampleInstall true).1.priv.function_table ∧
    (sampleInstall true).2.1.tables.erase (sampleInstall true).1.priv.function_table = [] ∧
    (Uninstall (sampleInstall true).1 (sampleInstall true).2.1).2.1.calls =
      (sampleInstall true).2.1.calls ++
        [HostCall.RtlDeleteFunctionTable (sampleInstall true).1.priv.function_table] ∧
    ¬ Installed (Uninstall (sampleInstall true).1 (sampleInstall true).2.1).1 :=
  have H := Uninstall_true_iff_installed_and_removed sampleLayout (sampleInstall true).1
    (sampleInstall true).2.1
  have ht := H.1.2 ⟨by decide, by decide⟩
  ⟨ht, (H.2.2.1 ht).2.1, by decide, (H.2.2.1 ht).2.2.1, (H.2.2.1 ht).2.2.2.2.1⟩

/-- C8: the `ExceptionInfo` that `Handler` hands to the callback, and the disposition
it returns.  For the access-violation code the type is `AccessViolation`, the access
type is `Read`, `Write` or `Execute` for the access codes `0`, `1` and `8` and
`Unknown` for every other access code, and the address is the second information
word; for every other exception code it is the zero-initialised `ExceptionInfo`,
whatever the information words hold. -/
theorem Handler_hands_translated_info (exception_record : EXCEPTION_RECORD) :
    ∃ info : ExceptionInfo,
      (∀ (σ : Type) (p : ExceptionHandlerPrivate σ) (f : ExceptionInfo → σ → σ) (s : σ),
        p.func = some f →
        Handler exception_record p s =
          some (EXCEPTION_DISPOSITION.ExceptionContinueExecution, f info s)) ∧
      (exception_record.ExceptionCode = EXCEPTION_ACCESS_VIOLATION →
        info.type = ExceptionType.AccessViolation ∧
        info.access_violation_vaddr = exception_record.ExceptionInformation 1 ∧
        (exception_record.ExceptionInformation 0 = 0 →
          info.access_violation_type = AccessViolationType.Read) ∧
        (exception_record.ExceptionInformation 0 = 1 →
          info.access_violation_type = AccessViolationType.Write) ∧
        (exception_record.ExceptionInformation 0 = 8 →
          info.access_violation_type = AccessViolationType.Execute) ∧
        (exception_record.ExceptionInformation 0 ≠ 0 →
          exception_record.ExceptionInformation 0 ≠ 1 →
          exception_record.ExceptionInformation 0 ≠ 8 →
          info.access_violation_type = AccessViolationType.Unknown)) ∧
      (exception_record.ExceptionCode ≠ EXCEPTION_ACCESS_VIOLATION →
        info = { type := ExceptionType.Unknown
                 access_violation_type := AccessViolationType.Unknown
                 access_violation_vaddr := 0 }) := by
  by_cases hcode : exception_record.ExceptionCode = EXCEPTION_ACCESS_VIOLATION
  · refine ⟨{ type := ExceptionType.AccessViolation
              access_violation_type :=
                if exception_record.ExceptionInformation 0 = 0 then AccessViolationType.Read
                else if exception_record.ExceptionInformation 0 = 1 then
                  AccessViolationType.Write
                else if exception_record.ExceptionInformation 0 = 8 then
                  AccessViolationType.Execute
                else AccessViolationType.Unknown
              access_violation_vaddr := exception_record.ExceptionInformation 1 }, ?_, ?_, ?_⟩
    · intro σ p f s hf
      simp [Handler, hcode, hf]
    · intro _
      refine ⟨rfl, rfl, ?_, ?_, ?_, ?_⟩
      · intro h0; simp [h0]
      · intro h1; simp [h1]
      · intro h8; simp [h8]
      · intro h0 h1 h8; simp [h0, h1, h8]
    · intro hne
      exact absurd hcode hne
  · refine ⟨{}, ?_, ?_, ?_⟩
    · intro σ p f s hf
      simp [Handler, hcode, hf]
    · intro he
      exact absurd he hcode
    · intro _
      rfl

/-- C10 (as the code has it): the record that `Install` constructs on an instance that
is not Installed and offers to the host against `base_address` has begin offset `0`
and end offset `image_size mod 2^32`; the end offset added to `base_address` equals
`base_address + image_size` exactly when `image_size` is below `2^32`. -/
theorem Install_function_table_range {σ : Type} (L : Layout) (e : ExceptionHandler σ) (h : Host)
    (base_address handler_addr image_size : Nat) (func : Option (ExceptionInfo → σ → σ))
    (hu : ¬ Installed e) :
    ∃ block : HandlerInfo,
      (Install L e h base_address handler_addr image_size func).2.1.blocks handler_addr =
        some block ∧
      HostCall.RtlAddFunctionTable (u64 (handler_addr + L.sizeofJmpRax)) 1 base_address ∈
        (Install L e h base_address handler_addr image_size func).2.1.calls ∧
      block.function_table.BeginAddress = 0 ∧
      block.function_table.EndAddress = image_size % 2 ^ 32 ∧
      (base_address + block.function_table.EndAddress = base_address + image_size ↔
        image_size < 2 ^ 32) := by
  obtain ⟨_, hcalls, _, hblock⟩ :=
    Install_uninstalled L e h base_address handler_addr image_size func hu
  refine ⟨_, hblock, ?_, rfl, rfl, ?_⟩
  · rw [hcalls]
    simp
  · simp only [u32]
    omega

/-- Witness for C10: a `0x10000`-byte image at `0x400000`, installed on a fresh
instance. -/
theorem Install_function_table_range_witness :
    ∃ block : HandlerInfo,
      (Install sampleLayout (ExceptionHandler.ctor (List ExceptionInfo) 0x5000) (sampleHost true)
        0x400000 0x70000000 0x10000 (some sampleCallback)).2.1.blocks 0x70000000 = some block ∧
      HostCall.RtlAddFunctionTable (u64 (0x70000000 + sampleLayout.sizeofJmpRax)) 1 0x400000 ∈
        (Install sampleLayout (ExceptionHandler.ctor (List ExceptionInfo) 0x5000)
          (sampleHost true) 0x400000 0x70000000 0x10000 (some sampleCallback)).2.1.calls ∧
      block.function_table.BeginAddress = 0 ∧
      block.function_table.EndAddress = 0x10000 % 2 ^ 32 ∧
      (0x400000 + block.function_table.EndAddress = 0x400000 + 0x10000 ↔ 0x10000 < 2 ^ 32) :=
  Install_function_table_range sampleLayout (ExceptionHandler.ctor (List ExceptionInfo) 0x5000)
    (sampleHost true) 0x400000 0x70000000 0x10000 (some sampleCallback) (by decide)

/-- C10 fails as stated: for an image of `2^32` bytes at `0x400000` the record that a
successful `Install` registers has end offset `0`, so it describes the empty range at
`0x400000` and not `[0x400000, 0x400000 + 2^32)`. -/
theorem Install_function_table_range_truncated :
    (Install sampleLayout (ExceptionHandler.ctor (List ExceptionInfo) 0x5000) (sampleHost true)
      0x400000 0x70000000 0x100000000 (some sampleCallback)).2.2 = true ∧
    ((Install sampleLayout (ExceptionHandler.ctor (List ExceptionInfo) 0x5000) (sampleHost true)
      0x400000 0x70000000 0x100000000 (some sampleCallback)).2.1.blocks 0x70000000).map
        (fun block => (block.function_table.BeginAddress, block.function_table.EndAddress)) =
      some (0, 0) ∧
    0x400000 + 0 ≠ 0x400000 + 0x100000000 := by
  decide

/-- C11: when the first `Protect` call of `PatchReplace(v, x)` reports the original
mode `old`, the host calls that `PatchReplace` issues are the change to
`PAGE_READWRITE`, the change back to the native code of `old` and then, exactly when
`old` is executable, one instruction-cache flush of the eight bytes at `v`; when `old`
is not executable no flush is issued. -/
theorem PatchReplace_flushes_iff_executable (h : Host) (v x : Nat) (old : Mode)
    (hp : (Protect h v 8 Mode.ReadWrite (some Mode.NoAccess)).2 = (true, some old)) :
    ∃ h1 r, PatchReplace h v x = some (h1, r) ∧
      (IsExecute old = true →
        h1.calls = h.calls ++
          [HostCall.VirtualProtect v 8 PAGE_READWRITE,
            HostCall.VirtualProtect v 8 (get_protection_flag old),
            HostCall.FlushInstructionCache v 8]) ∧
      (IsExecute old = false →
        h1.calls = h.calls ++
          [HostCall.VirtualProtect v 8 PAGE_READWRITE,
            HostCall.VirtualProtect v 8 (get_protection_flag old)]) := by
  have hc := (committed_of_Protect h v 8 Mode.ReadWrite (some Mode.NoAccess)
    (by rw [hp])).2
  obtain ⟨c, hcp⟩ := committed_firstPage h v 8 (by decide) hc
  have hP := Protect_ok h v 8 c Mode.ReadWrite (some Mode.NoAccess) (by decide) hc hcp
  rw [hP] at hp
  have hold : get_protection_flag_of_native c = old := by
    simpa using hp
  refine ⟨_, _, PatchReplace_committed h v x c hc hcp, ?_, ?_⟩
  · intro he
    simp [hold, he]
  · intro he
    simp [hold, he]

/-- Witness for C11: a host whose page `0x10` is committed execute-read, so that the
first `Protect` reports `ExecuteRead`, patched at `0x10008`. -/
theorem PatchReplace_flushes_iff_executable_witness :
    ∃ h1 r,
      PatchReplace { sampleHost true with prot := fun p => if p = 0x10 then some PAGE_EXECUTE_READ else none }
        0x10008 7 = some (h1, r) ∧
      (IsExecute Mode.ExecuteRead = true →
        h1.calls = ({ sampleHost true with
            prot := fun p => if p = 0x10 then some PAGE_EXECUTE_READ else none } : Host).calls ++
          [HostCall.VirtualProtect 0x10008 8 PAGE_READWRITE,
            HostCall.VirtualProtect 0x10008 8 (get_protection_flag Mode.ExecuteRead),
            HostCall.FlushInstructionCache 0x10008 8]) ∧
      (IsExecute Mode.ExecuteRead = false →
        h1.calls = ({ sampleHost true with
            prot := fun p => if p = 0x10 then some PAGE_EXECUTE_READ else none } : Host).calls ++
          [HostCall.VirtualProtect 0x10008 8 PAGE_READWRITE,
            HostCall.VirtualProtect 0x10008 8 (get_protection_flag Mode.ExecuteRead)]) :=
  PatchReplace_flushes_iff_executable _ 0x10008 7 Mode.ExecuteRead (by decide)

/-- C12: for every exception record, whether or not its exception code is the
access-violation code, `Handler` runs the registered callback exactly once, on an
`ExceptionInfo` built from that record alone, and returns the continue-execution
disposition: the resulting state is the callback applied once, a counter attached to
the callback goes up by exactly one, and no other disposition is ever returned. -/
theorem Handler_calls_back_once_and_continues {σ : Type} (exception_record : EXCEPTION_RECORD)
    (p : ExceptionHandlerPrivate σ) (f : ExceptionInfo → σ → σ) (hf : p.func = some f) :
    (∃ info : ExceptionInfo, ∀ (s : σ) (n : Nat),
      Handler exception_record p s =
        some (EXCEPTION_DISPOSITION.ExceptionContinueExecution, f info s) ∧
      Handler exception_record
          ({ base_address := p.base_address
             handler_addr := p.handler_addr
             image_size := p.image_size
             function_table := p.function_table
             func := some (counted f) } : ExceptionHandlerPrivate (σ × Nat)) (s, n) =
        some (EXCEPTION_DISPOSITION.ExceptionContinueExecution, (f info s, n + 1))) ∧
    (∀ (q : ExceptionHandlerPrivate σ) (s s1 : σ) (d : EXCEPTION_DISPOSITION),
      Handler exception_record q s = some (d, s1) →
      d = EXCEPTION_DISPOSITION.ExceptionContinueExecution) := by
  constructor
  · refine ⟨if exception_record.ExceptionCode = EXCEPTION_ACCESS_VIOLATION then
        { type := ExceptionType.AccessViolation
          access_violation_type :=
            if exception_record.ExceptionInformation 0 = 0 then AccessViolationType.Read
            else if exception_record.ExceptionInformation 0 = 1 then AccessViolationType.Write
            else if exception_record.ExceptionInformation 0 = 8 then
              AccessViolationType.Execute
            else AccessViolationType.Unknown
          access_violation_vaddr := exception_record.ExceptionInformation 1 }
      else {}, fun s n => ⟨?_, ?_⟩⟩
    · simp only [Handler, hf]
    · simp only [Handler, counted]
  · intro q s s1 d hq
    unfold Handler at hq
    cases hfun : q.func with
    | none => simp [hfun] at hq
    | some g =>
      simp only [hfun, Option.some.injEq, Prod.mk.injEq] at hq
      exact hq.1.symm

/-- Witness for C12: a write fault at `0x401000` delivered to the recording callback. -/
theorem Handler_calls_back_once_and_continues_witness :
    (∃ info : ExceptionInfo, ∀ (s : List ExceptionInfo) (n : Nat),
      Handler { ExceptionCode := EXCEPTION_ACCESS_VIOLATION
                ExceptionInformation := fun i => if i = 0 then 1 else 0x401000 }
          (sampleInstall true).1.priv s =
        some (EXCEPTION_DISPOSITION.ExceptionContinueExecution, sampleCallback info s) ∧
      Handler { ExceptionCode := EXCEPTION_ACCESS_VIOLATION
                ExceptionInformation := fun i => if i = 0 then 1 else 0x401000 }
          ({ base_address := (sampleInstall true).1.priv.base_address
             handler_addr := (sampleInstall true).1.priv.handler_addr
             image_size := (sampleInstall true).1.priv.image_size
             function_table := (sampleInstall true).1.priv.function_table
             func := some (counted sampleCallback) } :
            ExceptionHandlerPrivate (List ExceptionInfo × Nat)) (s, n) =
        some (EXCEPTION_DISPOSITION.ExceptionContinueExecution, (sampleCallback info s, n + 1))) ∧
    (∀ (q : ExceptionHandlerPrivate (List ExceptionInfo)) (s s1 : List ExceptionInfo)
        (d : EXCEPTION_DISPOSITION),
      Handler { ExceptionCode := EXCEPTION_ACCESS_VIOLATION
                ExceptionInformation := fun i => if i = 0 then 1 else 0x401000 } q s =
        some (d, s1) →
      d = EXCEPTION_DISPOSITION.ExceptionContinueExecution) :=
  Handler_calls_back_once_and_continues _ (sampleInstall true).1.priv sampleCallback rfl

theorem to_native_of_native_eq_iff (c : Nat) :
    get_protection_flag (get_protection_flag_of_native c) = c ↔
      (c = PAGE_NOACCESS ∨ c = PAGE_READONLY ∨ c = PAGE_READWRITE ∨ c = PAGE_EXECUTE ∨
        c = PAGE_EXECUTE_READ ∨ c = PAGE_EXECUTE_READWRITE) := by
  unfold get_protection_flag_of_native
  split_ifs with h1 h2 h3 h4 h5 h6
  · simp [get_protection_flag, h1]
  · simp [get_protection_flag, h2]
  · simp [get_protection_flag, h3]
  · simp [get_protection_flag, h4]
  · simp [get_protection_flag, h5]
  · simp [get_protection_flag, h6]
  · simp only [get_protection_flag, h1, h2, h3, h4, h5, h6, or_self, iff_false]
    exact fun h => h1 h.symm

theorem to_native_of_native_unrecognised (c : Nat)
    (hn : ¬ (c = PAGE_NOACCESS ∨ c = PAGE_READONLY ∨ c = PAGE_READWRITE ∨ c = PAGE_EXECUTE ∨
        c = PAGE_EXECUTE_READ ∨ c = PAGE_EXECUTE_READWRITE)) :
    get_protection_flag (get_protection_flag_of_native c) = PAGE_NOACCESS := by
  simp only [not_or] at hn
  obtain ⟨h1, h2, h3, h4, h5, h6⟩ := hn
  simp [get_protection_flag_of_native, get_protection_flag, h1, h2, h3, h4, h5, h6]

/-- C13: when the pages of the eight bytes at `v` hold the native protection code `c`,
`PatchReplace(v, x)` returns and leaves them holding `c` again exactly when `c` is one
of the six recognised codes; for every other `c` it leaves them as `PAGE_NOACCESS`.
Equivalently, Mode-to-native after native-to-Mode gives `c` back exactly on the six
recognised codes. -/
theorem PatchReplace_keeps_native_code_iff_recognised (h : Host) (v x c : Nat)
    (hall : ∀ p, inRange v 8 p = true → h.prot p = some c) :
    ∃ h1 r, PatchReplace h v x = some (h1, r) ∧
      ((∀ p, inRange v 8 p = true → h1.prot p = some c) ↔
        (c = PAGE_NOACCESS ∨ c = PAGE_READONLY ∨ c = PAGE_READWRITE ∨ c = PAGE_EXECUTE ∨
          c = PAGE_EXECUTE_READ ∨ c = PAGE_EXECUTE_READWRITE)) ∧
      (¬ (c = PAGE_NOACCESS ∨ c = PAGE_READONLY ∨ c = PAGE_READWRITE ∨ c = PAGE_EXECUTE ∨
          c = PAGE_EXECUTE_READ ∨ c = PAGE_EXECUTE_READWRITE) →
        ∀ p, inRange v 8 p = true → h1.prot p = some PAGE_NOACCESS) ∧
      (get_protection_flag (get_protection_flag_of_native c) = c ↔
        (c = PAGE_NOACCESS ∨ c = PAGE_READONLY ∨ c = PAGE_READWRITE ∨ c = PAGE_EXECUTE ∨
          c = PAGE_EXECUTE_READ ∨ c = PAGE_EXECUTE_READWRITE)) := by
  have hc : committed h v 8 = true := allPages_of_forall h v 8 Option.isSome c rfl hall
  have hcp := hall _ (inRange_firstPage v 8 (by decide))
  refine ⟨_, _, PatchReplace_committed h v x c hc hcp, ?_, ?_, to_native_of_native_eq_iff c⟩
  · rw [← to_native_of_native_eq_iff c]
    constructor
    · intro hp
      have := hp _ (inRange_firstPage v 8 (by decide))
      simpa [inRange_firstPage v 8 (by decide)] using this
    · intro heq p hp
      simp [hp, heq]
  · intro hn p hp
    simp [hp, to_native_of_native_unrecognised c hn]

/-- Witness for C13: a host whose page `0x10` is committed copy-on-write, patched at
`0x10008`. -/
theorem PatchReplace_keeps_native_code_iff_recognised_witness :
    ∃ h1 r,
      PatchReplace { sampleHost true with prot := fun p => if p = 0x10 then some PAGE_WRITECOPY else none }
        0x10008 7 = some (h1, r) ∧
      ((∀ p, inRange 0x10008 8 p = true → h1.prot p = some PAGE_WRITECOPY) ↔
        (PAGE_WRITECOPY = PAGE_NOACCESS ∨ PAGE_WRITECOPY = PAGE_READONLY ∨
          PAGE_WRITECOPY = PAGE_READWRITE ∨ PAGE_WRITECOPY = PAGE_EXECUTE ∨
          PAGE_WRITECOPY = PAGE_EXECUTE_READ ∨ PAGE_WRITECOPY = PAGE_EXECUTE_READWRITE)) ∧
      (¬ (PAGE_WRITECOPY = PAGE_NOACCESS ∨ PAGE_WRITECOPY = PAGE_READONLY ∨
          PAGE_WRITECOPY = PAGE_READWRITE ∨ PAGE_WRITECOPY = PAGE_EXECUTE ∨
          PAGE_WRITECOPY = PAGE_EXECUTE_READ ∨ PAGE_WRITECOPY = PAGE_EXECUTE_READWRITE) →
        ∀ p, inRange 0x10008 8 p = true → h1.prot p = some PAGE_NOACCESS) ∧
      (get_protection_flag (get_protection_flag_of_native PAGE_WRITECOPY) = PAGE_WRITECOPY ↔
        (PAGE_WRITECOPY = PAGE_NOACCESS ∨ PAGE_WRITECOPY = PAGE_READONLY ∨
          PAGE_WRITECOPY = PAGE_READWRITE ∨ PAGE_WRITECOPY = PAGE_EXECUTE ∨
          PAGE_WRITECOPY = PAGE_EXECUTE_READ ∨ PAGE_WRITECOPY = PAGE_EXECUTE_READWRITE)) :=
  PatchReplace_keeps_native_code_iff_recognised _ 0x10008 7 PAGE_WRITECOPY (by
    intro p hp
    have hp16 : p = 0x10 := by
      simp only [inRange, firstPage, lastPage, decide_eq_true_eq] at hp
      omega
    simp [hp16])

theorem InitHandler_block {σ : Type} (L : Layout) (this : Nat) (p : ExceptionHandlerPrivate σ)
    (h : Host) :
    (InitHandler L this p h).2.blocks p.handler_addr =
      some
        { code := { func := L.HandlerEntry }
          function_table :=
            { BeginAddress := 0
              EndAddress := u32 p.image_size
              UnwindData :=
                u32 (sub64 (u64 (p.handler_addr + L.sizeofJmpRax + 12)) p.base_address) }
          unwind_info :=
            { Version := 1
              Flags := UNW_FLAG_EHANDLER
              SizeOfProlog := 0
              CountOfCodes := 0
              FrameRegister := 0
              FrameOffset := 0
              ExceptionHandler := u32 (sub64 (u64 p.handler_addr) p.base_address)
              ExceptionData := this } } := by
  simp [InitHandler, FlushInstructionCache, hostFlushInstructionCache]

/-- C14 (as the code has it): for 64-bit `base_address` and `handler_addr`, the handler
and unwind-data offsets that `InitHandler` stores are the 64-bit differences
(trampoline address - `base_address`) and (unwind-info address - `base_address`)
truncated to 32 bits, so the 64-bit sum of `base_address` and the stored handler offset
equals the trampoline address `handler_addr` exactly when
(`handler_addr` - `base_address`) mod `2^64` is below `2^32`; in particular it does not
when the handler block lies `4 GiB` or more above `base_address`, or below it by at
most `2^64 - 2^32` bytes. -/
theorem InitHandler_offsets_truncated {σ : Type} (L : Layout) (this : Nat)
    (p : ExceptionHandlerPrivate σ) (h : Host)
    (hb : p.base_address < 2 ^ 64) (hh : p.handler_addr < 2 ^ 64) :
    ∃ block : HandlerInfo,
      (InitHandler L this p h).2.blocks p.handler_addr = some block ∧
      block.unwind_info.ExceptionHandler = sub64 p.handler_addr p.base_address % 2 ^ 32 ∧
      block.function_table.UnwindData =
        sub64 (u64 (p.handler_addr + L.sizeofJmpRax + 12)) p.base_address % 2 ^ 32 ∧
      (u64 (p.base_address + block.unwind_info.ExceptionHandler) = p.handler_addr ↔
        sub64 p.handler_addr p.base_address < 2 ^ 32) ∧
      (p.base_address + 2 ^ 32 ≤ p.handler_addr →
        u64 (p.base_address + block.unwind_info.ExceptionHandler) ≠ p.handler_addr) ∧
      (p.handler_addr < p.base_address → p.base_address - p.handler_addr ≤ 2 ^ 64 - 2 ^ 32 →
        u64 (p.base_address + block.unwind_info.ExceptionHandler) ≠ p.handler_addr) := by
  refine ⟨_, InitHandler_block L this p h, ?_, rfl, ?_, ?_, ?_⟩
  · simp only [u32, sub64, u64]
    omega
  · simp only [u32, sub64, u64]
    omega
  · intro hab
    simp only [u32, sub64, u64]
    omega
  · intro hlt hle
    simp only [u32, sub64, u64]
    omega

/-- Witness for C14: the handler block at `0x70000000` for an image at `0x400000`. -/
theorem InitHandler_offsets_truncated_witness :
    ∃ block : HandlerInfo,
      (InitHandler sampleLayout 0x5000 (sampleInstall true).1.priv (sampleHost true)).2.blocks
        (sampleInstall true).1.priv.handler_addr = some block ∧
      block.unwind_info.ExceptionHandler =
        sub64 (sampleInstall true).1.priv.handler_addr
          (sampleInstall true).1.priv.base_address % 2 ^ 32 ∧
      block.function_table.UnwindData =
        sub64 (u64 ((sampleInstall true).1.priv.handler_addr + sampleLayout.sizeofJmpRax + 12))
          (sampleInstall true).1.priv.base_address % 2 ^ 32 ∧
      (u64 ((sampleInstall true).1.priv.base_address + block.unwind_info.ExceptionHandler) =
          (sampleInstall true).1.priv.handler_addr ↔
        sub64 (sampleInstall true).1.priv.handler_addr
          (sampleInstall true).1.priv.base_address < 2 ^ 32) ∧
      ((sampleInstall true).1.priv.base_address + 2 ^ 32 ≤
          (sampleInstall true).1.priv.handler_addr →
        u64 ((sampleInstall true).1.priv.base_address + block.unwind_info.ExceptionHandler) ≠
          (sampleInstall true).1.priv.handler_addr) ∧
      ((sampleInstall true).1.priv.handler_addr < (sampleInstall true).1.priv.base_address →
        (sampleInstall true).1.priv.base_address - (sampleInstall true).1.priv.handler_addr ≤
          2 ^ 64 - 2 ^ 32 →
        u64 ((sampleInstall true).1.priv.base_address + block.unwind_info.ExceptionHandler) ≠
          (sampleInstall true).1.priv.handler_addr) :=
  InitHandler_offsets_truncated sampleLayout 0x5000 (sampleInstall true).1.priv (sampleHost true)
    (by decide) (by decide)

/-- C14 fails as stated: with `base_address = 0xFFFFFFFFFFFFF000` and the handler block
at `0x1000`, which lies below `base_address`, the stored handler offset is `0x2000`;
the difference mod `2^64` is below `2^32` and the 64-bit sum of `base_address` and the
stored offset is the trampoline address `0x1000`, while the sum without wrap-around is
not. -/
theorem InitHandler_offset_reaches_block_below_base :
    ((InitHandler sampleLayout 0x5000
        ({ base_address := 0xFFFFFFFFFFFFF000
           handler_addr := 0x1000
           image_size := 0x10000 } : ExceptionHandlerPrivate (List ExceptionInfo))
        (sampleHost true)).2.blocks 0x1000).map
      (fun block => block.unwind_info.ExceptionHandler) = some 0x2000 ∧
    0x1000 < 0xFFFFFFFFFFFFF000 ∧
    sub64 0x1000 0xFFFFFFFFFFFFF000 < 2 ^ 32 ∧
    u64 (0xFFFFFFFFFFFFF000 + 0x2000) = 0x1000 ∧
    0xFFFFFFFFFFFFF000 + 0x2000 ≠ 0x1000 := by
  decide

end VirtualMemory
